import Mathlib

/-!
Verification of the Interpreter-pattern module of the repository
(`src/Behavioral/Interpreter` — arithmetic calculator, simplified SQL
query evaluator, and toy regular-expression matcher).

The definitions below are a shallow embedding of that TypeScript source:
JavaScript numbers are modelled as `ℚ` (every numeric literal the module
can parse is a finite decimal), exceptions as `Except JsErr`, and the
`while` loop of `ZeroOrMoreExpression.match` with an explicit fuel
parameter (a result of `none` for every fuel means the source loop never
exits).
-/

/-- The runtime failures the module can produce:
`typeError` models a JavaScript `TypeError` (method call on `undefined`),
`divByZero` the `"除数不能为零"` throw of `DivideExpression.interpret`,
`unknownOperator` the `"未知运算符"` throw of `Calculator.createExpression`,
`unsupportedSyntax` the `"不支持的SQL语法"` throw of `SQLInterpreter.parseSQL`. -/
inductive JsErr where
  | typeError
  | divByZero
  | unknownOperator
  | unsupportedSyntax
  deriving DecidableEq, Repr

/-- JavaScript `\w` character class: `[A-Za-z0-9_]`. -/
def isWordCharJs (c : Char) : Bool :=
  c.isAlpha || c.isDigit || c = '_'

/-- JavaScript `\s` character class, restricted to the ASCII whitespace
characters that can occur in the module's inputs. -/
def isSpaceJs (c : Char) : Bool :=
  c = ' ' || c = '\t' || c = '\n' || c = '\r' || c = '\x0b' || c = '\x0c'

/-- Numeric value of a run of decimal digits (`parseFloat` on an
all-digit token is exactly its decimal integer value). -/
def natOfDigits (cs : List Char) : Nat :=
  cs.foldl (fun n c => n * 10 + (c.toNat - '0'.toNat)) 0

namespace Calculator

/-- The expression-node hierarchy of the basic interpreter
(`NumberExpression`, `VariableExpression`, `AddExpression`,
`SubtractExpression`, `MultiplyExpression`, `DivideExpression`).
`undefinedExpr` models the JavaScript `undefined` value that
`Calculator.parse` produces when it indexes or pops an empty stack. -/
inductive AbstractExpression where
  | NumberExpression (value : ℚ)
  | VariableExpression (name : String)
  | AddExpression (left right : AbstractExpression)
  | SubtractExpression (left right : AbstractExpression)
  | MultiplyExpression (left right : AbstractExpression)
  | DivideExpression (left right : AbstractExpression)
  | undefinedExpr
  deriving DecidableEq, Repr

/-- The `Context` variable store: `Map<string, number>` as an association
list. -/
def CalcContext : Type := List (String × ℚ)

/-- `Context.getVariable`: `this.variables.get(name) || 0` — a missing
variable (and a stored `0`, which is falsy) yields `0`. -/
def getVariable (ctx : CalcContext) (name : String) : ℚ :=
  (List.lookup name ctx).getD 0

/-- `interpret` of each expression class.  Evaluation order follows the
source: `+`, `-`, `*` evaluate left before right;
`DivideExpression.interpret` evaluates the right operand first, throws
`divByZero` if it is `0`, and only then evaluates the left operand.
Interpreting the `undefined` produced by a failed parse models the
JavaScript `TypeError` of calling `.interpret` on `undefined`. -/
def interpret : AbstractExpression → CalcContext → Except JsErr ℚ
  | .NumberExpression v, _ => .ok v
  | .VariableExpression n, ctx => .ok (getVariable ctx n)
  | .AddExpression l r, ctx =>
    match interpret l ctx with
    | .error e => .error e
    | .ok a =>
      match interpret r ctx with
      | .error e => .error e
      | .ok b => .ok (a + b)
  | .SubtractExpression l r, ctx =>
    match interpret l ctx with
    | .error e => .error e
    | .ok a =>
      match interpret r ctx with
      | .error e => .error e
      | .ok b => .ok (a - b)
  | .MultiplyExpression l r, ctx =>
    match interpret l ctx with
    | .error e => .error e
    | .ok a =>
      match interpret r ctx with
      | .error e => .error e
      | .ok b => .ok (a * b)
  | .DivideExpression l r, ctx =>
    match interpret r ctx with
    | .error e => .error e
    | .ok b =>
      if b = 0 then
        .error .divByZero
      else
        match interpret l ctx with
        | .error e => .error e
        | .ok a => .ok (a / b)
  | .undefinedExpr, _ => .error .typeError

/-- Run kind of the token currently being scanned by the tokenizer:
a `\d+` match or a `\w+` match. -/
inductive RunKind where
  | digits
  | word
  deriving DecidableEq, Repr

/-- One left-to-right pass of `expression.match(/\d+|\w+|[+\-*/()]/g)`:
at each position the first alternative that matches wins (`\d+` before
`\w+`, both greedy), single-character operator/parenthesis tokens, and
non-matching characters are skipped.  The accumulator holds the token run
in progress. -/
def tokGo : List Char → Option (RunKind × List Char) → List String
  | [], none => []
  | [], some (_, buf) => [buf.asString]
  | c :: rest, cur =>
    let continues : Bool :=
      match cur with
      | some (.digits, _) => c.isDigit
      | some (.word, _) => isWordCharJs c
      | none => false
    if continues then
      match cur with
      | some (k, buf) => tokGo rest (some (k, buf ++ [c]))
      | none => tokGo rest none
    else
      (match cur with
       | some (_, buf) => [buf.asString]
       | none => []) ++
      (if c.isDigit then tokGo rest (some (.digits, [c]))
       else if isWordCharJs c then tokGo rest (some (.word, [c]))
       else if c = '+' || c = '-' || c = '*' || c = '/' || c = '(' || c = ')' then
         c.toString :: tokGo rest none
       else tokGo rest none)

/-- `Calculator.tokenize`. -/
def tokenize (s : String) : List String :=
  tokGo s.toList none

/-- `Calculator.isNumber`: `/^\d+$/.test(token)`. -/
def isNumber (t : String) : Bool :=
  !t.toList.isEmpty && t.toList.all Char.isDigit

/-- `Calculator.isVariable`: `/^[a-zA-Z]\w*$/.test(token)`. -/
def isVariable (t : String) : Bool :=
  match t.toList with
  | [] => false
  | c :: rest => c.isAlpha && rest.all isWordCharJs

/-- `Calculator.isOperator`. -/
def isOperator (t : String) : Bool :=
  t = "+" || t = "-" || t = "*" || t = "/"

/-- `Calculator.precedence`: `+`,`-` → 1; `*`,`/` → 2; anything else
(notably the `(` marker on the operator stack) → 0. -/
def precedence (op : String) : Nat :=
  if op = "+" || op = "-" then 1
  else if op = "*" || op = "/" then 2
  else 0

/-- `Calculator.createExpression`; the `default` branch throws
`"未知运算符"`. -/
def createExpression (op : String) (left right : AbstractExpression) :
    Except JsErr AbstractExpression :=
  if op = "+" then .ok (.AddExpression left right)
  else if op = "-" then .ok (.SubtractExpression left right)
  else if op = "*" then .ok (.MultiplyExpression left right)
  else if op = "/" then .ok (.DivideExpression left right)
  else .error .unknownOperator

/-- `stack.pop()!` — popping an empty JavaScript array yields `undefined`.
The list head is the top of the stack (the end of the JS array). -/
def popStack : List AbstractExpression → AbstractExpression × List AbstractExpression
  | [] => (.undefinedExpr, [])
  | x :: xs => (x, xs)

/-- Pop an operator, pop `right` then `left`, combine via
`createExpression` and push the result (the reduction step shared by the
three loops of `Calculator.parse`). -/
def applyTop (op : String) (stack : List AbstractExpression) :
    Except JsErr (List AbstractExpression) :=
  let (right, s1) := popStack stack
  let (left, s2) := popStack s1
  match createExpression op left right with
  | .error e => .error e
  | .ok e => .ok (e :: s2)

/-- The `while (precedence(top) >= precedence(token))` reduction loop run
before pushing an incoming operator token. -/
def reduceWhileGE (tok : String) :
    List String → List AbstractExpression →
    Except JsErr (List String × List AbstractExpression)
  | [], stack => .ok ([], stack)
  | op :: ops, stack =>
    if precedence op ≥ precedence tok then
      match applyTop op stack with
      | .error e => .error e
      | .ok s => reduceWhileGE tok ops s
    else
      .ok (op :: ops, stack)

/-- The `while (top !== "(")` reduction loop run on a `)` token; the
`(` marker (when present) is left on the stack for the caller to drop. -/
def reduceUntilLParen :
    List String → List AbstractExpression →
    Except JsErr (List String × List AbstractExpression)
  | [], stack => .ok ([], stack)
  | op :: ops, stack =>
    if op = "(" then .ok (op :: ops, stack)
    else
      match applyTop op stack with
      | .error e => .error e
      | .ok s => reduceUntilLParen ops s

/-- The final `while (operators.length > 0)` drain of `Calculator.parse`. -/
def drainOps :
    List String → List AbstractExpression →
    Except JsErr (List AbstractExpression)
  | [], stack => .ok stack
  | op :: ops, stack =>
    match applyTop op stack with
    | .error e => .error e
    | .ok s => drainOps ops s

/-- The token loop of `Calculator.parse` (shunting-yard).  Token classes
are tested in source order; a token in none of them is silently ignored.
The returned root is `stack[0]` — the *bottom* of the output stack, i.e.
the last element of our head-is-top list — or `undefined` when the stack
is empty. -/
def parseLoop :
    List String → List String → List AbstractExpression →
    Except JsErr AbstractExpression
  | [], ops, stack =>
    match drainOps ops stack with
    | .error e => .error e
    | .ok s => .ok ((s.getLast?).getD .undefinedExpr)
  | t :: ts, ops, stack =>
    if isNumber t then
      parseLoop ts ops (.NumberExpression (natOfDigits t.toList : ℚ) :: stack)
    else if isVariable t then
      parseLoop ts ops (.VariableExpression t :: stack)
    else if isOperator t then
      match reduceWhileGE t ops stack with
      | .error e => .error e
      | .ok (ops2, st2) => parseLoop ts (t :: ops2) st2
    else if t = "(" then
      parseLoop ts ("(" :: ops) stack
    else if t = ")" then
      match reduceUntilLParen ops stack with
      | .error e => .error e
      | .ok (ops2, st2) => parseLoop ts (ops2.drop 1) st2
    else
      parseLoop ts ops stack

/-- `Calculator.parse`. -/
def parse (tokens : List String) : Except JsErr AbstractExpression :=
  parseLoop tokens [] []

/-- `Calculator.evaluate`: tokenize, parse, interpret. -/
def evaluate (s : String) (ctx : CalcContext) : Except JsErr ℚ :=
  match parse (tokenize s) with
  | .error e => .error e
  | .ok ast => interpret ast ctx

end Calculator


namespace Regex

/-- The regex expression classes: `CharacterExpression`, `DotExpression`,
`SequenceExpression` (over a list of sub-expressions),
`AlternationExpression` and `ZeroOrMoreExpression`. -/
inductive RegexExpression where
  | char (c : Char)
  | dot
  | seq (es : List RegexExpression)
  | alt (left right : RegexExpression)
  | star (e : RegexExpression)
  deriving Repr

/-- The `match` methods of the expression classes, with the mutable
`RegexContext` cursor made explicit: the result is `some (success,
newPosition)`.  `fuel` decreases on every recursive call, so `none` for
every fuel value means the source computation never returns (the `while`
loop of `ZeroOrMoreExpression.match` can loop forever).

Faithedness notes, matching the source line by line:
* `char`/`dot` advance on success and leave the cursor alone on failure
  (`getCurrentChar` returns `""` past the end, which equals no pattern
  character).
* `seq (e :: rest)` is the sequential loop; the source restores the saved
  start position on any element's failure, hence the `(false, pos)`
  results.  Running the tail as `seq rest` and overriding its restore
  position with the whole sequence's start is observationally the same
  as the source's single loop.
* `alt` returns the left result on success and otherwise retries the
  right branch from the saved start position.
* `star` keeps matching its sub-expression while it succeeds and returns
  `true` with the cursor wherever the last attempt left it. -/
def matchE : Nat → RegexExpression → List Char → Nat → Option (Bool × Nat)
  | 0, _, _, _ => none
  | _ + 1, .char c, s, pos =>
    if h : pos < s.length then
      if s.get ⟨pos, h⟩ = c then some (true, pos + 1) else some (false, pos)
    else
      some (false, pos)
  | _ + 1, .dot, s, pos =>
    if pos < s.length then some (true, pos + 1) else some (false, pos)
  | _ + 1, .seq [], _, pos => some (true, pos)
  | fuel + 1, .seq (e :: rest), s, pos =>
    match matchE fuel e s pos with
    | none => none
    | some (false, _) => some (false, pos)
    | some (true, p) =>
      match matchE fuel (.seq rest) s p with
      | none => none
      | some (false, _) => some (false, pos)
      | some (true, q) => some (true, q)
  | fuel + 1, .alt l r, s, pos =>
    match matchE fuel l s pos with
    | none => none
    | some (true, p) => some (true, p)
    | some (false, _) => matchE fuel r s pos
  | fuel + 1, .star e, s, pos =>
    match matchE fuel e s pos with
    | none => none
    | some (false, p) => some (true, p)
    | some (true, p) => matchE fuel (.star e) s p

/-- The loop body of `SimpleRegexInterpreter.parsePattern`.  The
accumulator mirrors the `expressions` array with its head as the most
recently pushed element.  `.` pushes a dot matcher; `*` wraps the last
pushed expression when one exists and otherwise (source order of the
`else if` chain) falls through to a literal `*` character matcher; `|`
returns an alternation of the sequence built so far with the recursively
parsed remainder; any other character becomes a literal matcher. -/
def parsePatternAux : List Char → List RegexExpression → RegexExpression
  | [], acc => .seq acc.reverse
  | c :: rest, acc =>
    if c = '.' then
      parsePatternAux rest (.dot :: acc)
    else if c = '*' then
      match acc with
      | last :: prev => parsePatternAux rest (.star last :: prev)
      | [] => parsePatternAux rest (.char '*' :: acc)
    else if c = '|' then
      .alt (.seq acc.reverse) (parsePatternAux rest [])
    else
      parsePatternAux rest (.char c :: acc)

/-- `SimpleRegexInterpreter.parsePattern`. -/
def parsePattern (pattern : String) : RegexExpression :=
  parsePatternAux pattern.toList []

/-- `SimpleRegexInterpreter.test`:
`expression.match(context) && context.isAtEnd()` on a fresh context at
position 0, fuelled like `matchE`. -/
def testF (fuel : Nat) (pattern input : String) : Option Bool :=
  match matchE fuel (parsePattern pattern) input.toList 0 with
  | none => none
  | some (b, pos) => some (b && decide (input.toList.length ≤ pos))

end Regex


namespace SQL

/-- A JavaScript value stored in a table row or a WHERE predicate:
a number (`ℚ`), a string, or `undefined` (the result of reading a
missing object property). -/
inductive JsVal where
  | num (q : ℚ)
  | str (s : String)
  | undef
  deriving DecidableEq, Repr

/-- A table row: `{column: value}` as an ordered association list. -/
def Row : Type := List (String × JsVal)

/-- `SQLContext`: `Map<string, any[]>` from table name to rows. -/
def SQLContext : Type := List (String × List Row)

/-- `String.prototype.trim()` (JS whitespace restricted as in
`isSpaceJs`). -/
def trimJs (cs : List Char) : List Char :=
  ((cs.dropWhile isSpaceJs).reverse.dropWhile isSpaceJs).reverse

/-- JS `.` (dot) character class without the `s` flag: any character but
a line terminator.  (U+2028/U+2029 cannot occur in the module's query
strings and are not modelled.) -/
def isDotJs (c : Char) : Bool :=
  !(c = '\n' || c = '\r')

/-- Case-insensitive character comparison for the `/i` regex flag. -/
def lowerEq (a b : Char) : Bool :=
  a.toLower = b.toLower

/-- Match a literal regex fragment case-insensitively, returning the
matched input slice (JS captures the input text, not the pattern text)
and the remaining input. -/
def stripPrefixCI : List Char → List Char → Option (List Char × List Char)
  | [], cs => some ([], cs)
  | _ :: _, [] => none
  | p :: ps, c :: cs =>
    if lowerEq p c then
      (stripPrefixCI ps cs).map (fun pr => (c :: pr.1, pr.2))
    else
      none

/-- `Number(s)` on the strings this module can produce, returning `none`
for `NaN`: trim, empty → `0`, otherwise an optionally signed decimal
literal (`digits`, `digits.digits` or `.digits`).  Hexadecimal, exponent
and `Infinity` forms never occur here and are not modelled. -/
def jsNumberOpt (s : String) : Option ℚ :=
  let t := trimJs s.toList
  match t with
  | [] => some 0
  | _ =>
    let (neg, t2) : Bool × List Char :=
      match t with
      | '+' :: r => (false, r)
      | '-' :: r => (true, r)
      | r => (false, r)
    let ip := t2.takeWhile Char.isDigit
    let rest := t2.drop ip.length
    let fp? : Option (List Char) :=
      match rest with
      | [] => if ip.isEmpty then none else some []
      | '.' :: fr =>
        let fp := fr.takeWhile Char.isDigit
        if fr.drop fp.length ≠ [] then none
        else if ip.isEmpty && fp.isEmpty then none
        else some fp
      | _ => none
    match fp? with
    | none => none
    | some fp =>
      let mag : ℚ :=
        ((natOfDigits ip : ℚ) * (10 : ℚ) ^ fp.length + (natOfDigits fp : ℚ)) /
          (10 : ℚ) ^ fp.length
      some (if neg then -mag else mag)

/-- `Number.prototype.toString()` for the values this module can hold:
integers print as decimal integers, finite decimals with a decimal
point and no trailing zeros.  (JS shortest-round-trip float formatting
for other rationals is unreachable from the module's inputs; such values
get a fraction rendering here.) -/
def jsNumToString (q : ℚ) : String :=
  match (List.range 21).find? (fun k => (q * (10 : ℚ) ^ k).den = 1) with
  | some 0 => toString q.num
  | some k =>
    let n := (q * (10 : ℚ) ^ k).num
    let sign := if n < 0 then "-" else ""
    let ds := (toString n.natAbs).toList
    let ds := if ds.length ≤ k then List.replicate (k + 1 - ds.length) '0' ++ ds else ds
    sign ++ (ds.take (ds.length - k)).asString ++ "." ++ (ds.drop (ds.length - k)).asString
  | none => toString q.num ++ "/" ++ toString q.den

/-- `value.toString()`: calling a method on `undefined` throws a
`TypeError`. -/
def jsToString : JsVal → Except JsErr String
  | .undef => .error .typeError
  | .str s => .ok s
  | .num q => .ok (jsNumToString q)

/-- `String.prototype.includes` (substring containment). -/
def containsSub : List Char → List Char → Bool
  | [], needle => needle.isEmpty
  | h :: t, needle => needle.isPrefixOf (h :: t) || containsSub t needle

/-- JS strict equality `===` on the modelled values.  (`NaN` is not
representable as a stored value in this model.) -/
def jsStrictEq : JsVal → JsVal → Bool
  | .num a, .num b => a = b
  | .str a, .str b => a = b
  | .undef, .undef => true
  | _, _ => false

/-- JS `ToNumber` as used by the relational operators; `none` is `NaN`. -/
def jsToNumber : JsVal → Option ℚ
  | .num q => some q
  | .str s => jsNumberOpt s
  | .undef => none

/-- JS `<`: both strings → code-unit lexicographic order, otherwise
numeric comparison where any `NaN` operand makes the result `false`. -/
def jsLtB (a b : JsVal) : Bool :=
  match a, b with
  | .str x, .str y => decide (x < y)
  | _, _ =>
    match jsToNumber a, jsToNumber b with
    | some x, some y => decide (x < y)
    | _, _ => false

/-- JS `>`. -/
def jsGtB (a b : JsVal) : Bool :=
  jsLtB b a

/-- JS `<=` (`!(b < a)`, except that any `NaN` yields `false`). -/
def jsLeB (a b : JsVal) : Bool :=
  match a, b with
  | .str x, .str y => decide (x ≤ y)
  | _, _ =>
    match jsToNumber a, jsToNumber b with
    | some x, some y => decide (x ≤ y)
    | _, _ => false

/-- JS `>=`. -/
def jsGeB (a b : JsVal) : Bool :=
  jsLeB b a

/-- `WhereExpression`: one `(column, operator, value)` predicate. -/
structure WhereExpression where
  column : String
  operator : String
  value : JsVal
  deriving DecidableEq, Repr

/-- `SelectExpression`: columns, table and optional WHERE clause. -/
structure SelectExpression where
  columns : List String
  table : String
  whereClause : Option WhereExpression
  deriving DecidableEq, Repr

/-- `WhereExpression.evaluate`, switching on the operator string exactly
as the source `switch` does.  `row[column]` on a missing column yields
`undefined`; the `LIKE` branch then throws a `TypeError` when it calls
`.toString()` on it.  An operator outside the supported set (e.g. a
lower-case `like` captured by the case-insensitive parse) falls to the
`default: return false` branch. -/
def evaluate (w : WhereExpression) (row : Row) : Except JsErr Bool :=
  let columnValue : JsVal := (List.lookup w.column row).getD .undef
  match w.operator with
  | "=" => .ok (jsStrictEq columnValue w.value)
  | "!=" => .ok (!jsStrictEq columnValue w.value)
  | ">" => .ok (jsGtB columnValue w.value)
  | "<" => .ok (jsLtB columnValue w.value)
  | ">=" => .ok (jsGeB columnValue w.value)
  | "<=" => .ok (jsLeB columnValue w.value)
  | "LIKE" =>
    match jsToString columnValue with
    | .error e => .error e
    | .ok a =>
      match jsToString w.value with
      | .error e => .error e
      | .ok b => .ok (containsSub a.toList b.toList)
  | _ => .ok false

/-- `data.filter((row) => whereClause.evaluate(row))`: the predicate runs
on each row in order and the first thrown error aborts the whole call. -/
def filterRows (w : WhereExpression) : List Row → Except JsErr (List Row)
  | [] => .ok []
  | r :: rs =>
    match evaluate w r with
    | .error e => .error e
    | .ok keep =>
      match filterRows w rs with
      | .error e => .error e
      | .ok rest => .ok (if keep then r :: rest else rest)

/-- `SelectExpression.interpret`: fetch the table (unknown table → `[]`),
filter by the WHERE clause when present, return whole rows when the
column list contains `*`, otherwise project each row to the requested
columns, silently skipping columns the row does not define. -/
def interpret (ctx : SQLContext) (se : SelectExpression) :
    Except JsErr (List Row) :=
  let data := (List.lookup se.table ctx).getD []
  let filtered : Except JsErr (List Row) :=
    match se.whereClause with
    | some w => filterRows w data
    | none => .ok data
  match filtered with
  | .error e => .error e
  | .ok data =>
    if "*" ∈ se.columns then
      .ok data
    else
      .ok (data.map (fun row =>
        se.columns.filterMap (fun c => (List.lookup c row).map (fun v => (c, v)))))

/-!  The two regexes of `SQLInterpreter.parseSQL`, modelled at the
character level with JavaScript's leftmost-first backtracking order:

* `/SELECT\s+(.+?)\s+FROM\s+(\w+)(?:\s+WHERE\s+(.+))?/i`
* `/(\w+)\s*(=|!=|>|<|>=|<=|LIKE)\s*(.+)/i`
-/

/-- `\s*(.+)`: the greedy `\s*` takes `j` whitespace characters starting
from the maximal run and backtracks downwards; `(.+)` then captures the
maximal run of dot-class characters, needing at least one. -/
def tailCaptureAux (cs : List Char) : Nat → Option String
  | 0 =>
    match cs with
    | r :: _ => if isDotJs r then some ((cs.takeWhile isDotJs).asString) else none
    | [] => none
  | j + 1 =>
    match cs.drop (j + 1) with
    | r :: _ =>
      if isDotJs r then
        some (((cs.drop (j + 1)).takeWhile isDotJs).asString)
      else
        tailCaptureAux cs j
    | [] => tailCaptureAux cs j

/-- `\s*(.+)` starting from the maximal whitespace run. -/
def tailCapture (cs : List Char) : Option String :=
  tailCaptureAux cs (cs.takeWhile isSpaceJs).length

/-- `\s+(.+)`: like `tailCapture` but `\s+` must consume at least one
character, so the backtracking stops at one. -/
def tailCapturePlusAux (cs : List Char) : Nat → Option String
  | 0 => none
  | j + 1 =>
    match cs.drop (j + 1) with
    | r :: _ =>
      if isDotJs r then
        some (((cs.drop (j + 1)).takeWhile isDotJs).asString)
      else
        tailCapturePlusAux cs j
    | [] => tailCapturePlusAux cs j

/-- `\s+(.+)` starting from the maximal whitespace run. -/
def tailCapturePlus (cs : List Char) : Option String :=
  tailCapturePlusAux cs (cs.takeWhile isSpaceJs).length

/-- The operator alternation `(=|!=|>|<|>=|<=|LIKE)` in its verbatim
source order.  JavaScript alternation is ordered first-match: because
`>` precedes `>=` (and `<` precedes `<=`), a two-character operator can
never be chosen — `>` matches first and the `=` is left for the value
capture. -/
def opAlternatives : List String := ["=", "!=", ">", "<", ">=", "<=", "LIKE"]

/-- Try the operator alternatives in order at the given input position;
on a match the rest of the regex (`\s*(.+)`) must also succeed, otherwise
the next alternative is tried.  Returns the captured operator text and
value text. -/
def tryOperators : List String → List Char → Option (String × String)
  | [], _ => none
  | a :: rest, cs =>
    match stripPrefixCI a.toList cs with
    | some (matchedOp, r) =>
      match tailCapture r with
      | some v => some (matchedOp.asString, v)
      | none => tryOperators rest cs
    | none => tryOperators rest cs

/-- `(\w+)\s*` then the operator alternation: the greedy `(\w+)` tries
the maximal word run first and backtracks down to one character; `\s*`
after it can only take the maximal whitespace run, because no operator
alternative starts with whitespace. -/
def tryColumnAux (cs : List Char) : Nat → Option (String × String × String)
  | 0 => none
  | k + 1 =>
    let col := cs.take (k + 1)
    let rest := (cs.drop (k + 1)).dropWhile isSpaceJs
    match tryOperators opAlternatives rest with
    | some (op, v) => some (col.asString, op, v)
    | none => tryColumnAux cs k

/-- `whereClause.match(/(\w+)\s*(=|!=|>|<|>=|<=|LIKE)\s*(.+)/i)`:
unanchored search, trying each start position left to right. -/
def searchWhere : List Char → Option (String × String × String)
  | [] => none
  | c :: rest =>
    match tryColumnAux (c :: rest) ((c :: rest).takeWhile isWordCharJs).length with
    | some r => some r
    | none => searchWhere rest

/-- The optional group `(?:\s+WHERE\s+(.+))?`: `\s+` can only take the
maximal whitespace run (`WHERE` starts with a non-space character); a
failing group is skipped rather than failing the whole match. -/
def tryWhereGroup (cs : List Char) : Option String :=
  let sp := (cs.takeWhile isSpaceJs).length
  if sp = 0 then none
  else
    match stripPrefixCI "WHERE".toList (cs.drop sp) with
    | none => none
    | some (_, r) => tailCapturePlus r

/-- `\s+FROM\s+(\w+)(?:\s+WHERE\s+(.+))?` after the lazy column capture.
Both `\s+` runs can only be maximal (`FROM` and the `\w+` table name
start with non-space characters), and the greedy table `(\w+)` never
backtracks because the optional group needs whitespace next. -/
def afterCols (cs : List Char) : Option (String × Option String) :=
  let sp1 := (cs.takeWhile isSpaceJs).length
  if sp1 = 0 then none
  else
    match stripPrefixCI "FROM".toList (cs.drop sp1) with
    | none => none
    | some (_, r1) =>
      let sp2 := (r1.takeWhile isSpaceJs).length
      if sp2 = 0 then none
      else
        let r2 := r1.drop sp2
        let tbl := r2.takeWhile isWordCharJs
        if tbl.isEmpty then none
        else some (tbl.asString, tryWhereGroup (r2.drop tbl.length))

/-- The lazy `(.+?)` column capture: grow the capture one dot-class
character at a time (shortest first) and try the rest of the regex after
each character. -/
def colsScan : List Char → List Char → Option (String × String × Option String)
  | _, [] => none
  | acc, c :: rest =>
    if isDotJs c then
      match afterCols rest with
      | some (tbl, w) => some ((acc ++ [c]).asString, tbl, w)
      | none => colsScan (acc ++ [c]) rest
    else
      none

/-- `SELECT\s+` then the lazy column capture: the greedy `\s+` starts at
the maximal whitespace run and backtracks downwards (shifting whitespace
into the lazy capture only when nothing longer matches). -/
def selectSpacesLoop (cs : List Char) : Nat → Option (String × String × Option String)
  | 0 => none
  | i + 1 =>
    match colsScan [] (cs.drop (i + 1)) with
    | some r => some r
    | none => selectSpacesLoop cs i

/-- Try the whole SELECT regex at one start position. -/
def trySelectAt (cs : List Char) : Option (String × String × Option String) :=
  match stripPrefixCI "SELECT".toList cs with
  | none => none
  | some (_, r) => selectSpacesLoop r (r.takeWhile isSpaceJs).length

/-- `sql.match(/SELECT\s+(.+?)\s+FROM\s+(\w+)(?:\s+WHERE\s+(.+))?/i)`:
unanchored search, leftmost start position first. -/
def searchSelect : List Char → Option (String × String × Option String)
  | [] => none
  | c :: rest =>
    match trySelectAt (c :: rest) with
    | some r => some r
    | none => searchSelect rest

/-- The WHERE value conversion of `parseSQL`: a single-quoted literal is
unquoted, otherwise `!isNaN(value)` promotes the text to a number via
`parseFloat` (which agrees with `Number` on the decimal literals the
`isNaN` guard lets through), and anything else stays a string. -/
def whereValue (v : String) : JsVal :=
  let cs := v.toList
  if cs.head? = some '\'' ∧ cs.getLast? = some '\'' then
    .str ((cs.drop 1).dropLast).asString
  else
    match jsNumberOpt v with
    | some q => .num q
    | none => .str v

/-- `SQLInterpreter.parseSQL`: run the SELECT regex (no match →
`"不支持的SQL语法"`), comma-split and trim the column list, and parse the
optional WHERE clause with the second regex — a WHERE clause that the
second regex cannot match leaves the `WhereExpression` undefined. -/
def parseSQL (sql : String) : Except JsErr SelectExpression :=
  match searchSelect sql.toList with
  | none => .error .unsupportedSyntax
  | some (colsStr, tbl, whereO) =>
    let columns := (colsStr.splitOn ",").map (fun c => (trimJs c.toList).asString)
    let whereExpression : Option WhereExpression :=
      match whereO with
      | none => none
      | some w =>
        match searchWhere w.toList with
        | none => none
        | some (c, op, v) => some ⟨c, op, whereValue v⟩
    .ok ⟨columns, tbl, whereExpression⟩

/-- `SQLInterpreter.execute`: parse, then interpret against the context. -/
def execute (ctx : SQLContext) (sql : String) : Except JsErr (List Row) :=
  match parseSQL sql with
  | .error e => .error e
  | .ok se => interpret ctx se

end SQL

/-- Sample table mirroring the spec's `users` example. -/
def usersCtx : SQL.SQLContext :=
  [("users",
    [[("id", .num 1), ("name", .str "A"), ("age", .num 25), ("city", .str "NY")],
     [("id", .num 2), ("name", .str "B"), ("age", .num 30), ("city", .str "LA")]])]

section CalculatorChecks

example : Calculator.tokenize "2 + 3 * 4" = ["2", "+", "3", "*", "4"] := by decide

example : Calculator.evaluate "2 + 3 * 4" [] = .ok 14 := by with_unfolding_all rfl
example : Calculator.evaluate "(2 + 3) * 4" [] = .ok 20 := by with_unfolding_all rfl
example : Calculator.evaluate "x + 1" [] = .ok 1 := by with_unfolding_all rfl
example : Calculator.evaluate "10 / 0" [] = .error .divByZero := by rfl
example : Calculator.evaluate "" [] = .error .typeError := by rfl
example : Calculator.parse (Calculator.tokenize "") = .ok .undefinedExpr := by rfl
example : Calculator.evaluate "x * y - 2" [("x", 10), ("y", 5)] = .ok 48 := by
  with_unfolding_all rfl

end CalculatorChecks

section RegexChecks

example : Regex.testF 50 "a*b" "aaab" = some true := by decide
example : Regex.testF 50 "a*b" "b" = some true := by decide
example : Regex.testF 50 "a*b" "c" = some false := by decide
example : Regex.testF 50 "a.c" "abc" = some true := by decide
example : Regex.testF 50 "a|b" "a" = some true := by decide
example : Regex.testF 50 "a|b" "b" = some true := by decide
example : Regex.testF 50 "" "" = some true := by decide
example : Regex.testF 50 "" "x" = some false := by decide
example : Regex.parsePattern "a**" =
    .seq [.star (.star (.char 'a'))] := by rfl
example : Regex.testF 50 "a**" "" = none := by rfl

end RegexChecks

section SQLChecks

example : SQL.execute usersCtx "SELECT * FROM users" =
    .ok [[("id", .num 1), ("name", .str "A"), ("age", .num 25), ("city", .str "NY")],
         [("id", .num 2), ("name", .str "B"), ("age", .num 30), ("city", .str "LA")]] := by
  with_unfolding_all rfl

example : SQL.execute usersCtx "SELECT name, age FROM users WHERE city = 'NY'" =
    .ok [[("name", .str "A"), ("age", .num 25)]] := by
  with_unfolding_all rfl

example : SQL.execute usersCtx "SELECT * FROM users WHERE age > 28" =
    .ok [[("id", .num 2), ("name", .str "B"), ("age", .num 30), ("city", .str "LA")]] := by
  with_unfolding_all rfl

example : SQL.parseSQL "SELECT * FROM users WHERE age >= 28" =
    .ok ⟨["*"], "users", some ⟨"age", ">", .str "= 28"⟩⟩ := by
  with_unfolding_all rfl

example : SQL.execute usersCtx "SELECT * FROM users WHERE age >= 28" = .ok [] := by
  with_unfolding_all rfl

example : SQL.execute usersCtx "SELECT * FROM users WHERE age <= 99" = .ok [] := by
  with_unfolding_all rfl

example : SQL.execute usersCtx "SELECT * FROM nope" = .ok [] := by
  with_unfolding_all rfl

example : SQL.execute usersCtx "DROP TABLE users" = .error .unsupportedSyntax := by
  with_unfolding_all rfl

example : SQL.execute [("t", [[("a", .str "q")]])] "SELECT * FROM t WHERE c LIKE 'q'" =
    .error .typeError := by
  with_unfolding_all rfl

example : SQL.execute [("t", [[("a", .str "xqy")]])] "SELECT * FROM t WHERE a LIKE 'q'" =
    .ok [[("a", .str "xqy")]] := by
  with_unfolding_all rfl

end SQLChecks

/-! ### Helper lemmas about the regex matcher -/

/-- `ZeroOrMoreExpression.match` never returns failure: the `while` loop
only ever exits into `return true`. -/
theorem matchE_star_ne_false (fuel : Nat) :
    ∀ (e : Regex.RegexExpression) (s : List Char) (pos p' : Nat),
      Regex.matchE fuel (.star e) s pos ≠ some (false, p') := by
  induction fuel with
  | zero => intro e s pos p' h; simp [Regex.matchE] at h
  | succ f ih =>
    intro e s pos p' h
    simp only [Regex.matchE] at h
    cases heq : Regex.matchE f e s pos with
    | none => rw [heq] at h; simp at h
    | some bp =>
      obtain ⟨b, p⟩ := bp
      rw [heq] at h
      cases b with
      | false => simp at h
      | true => exact ih e s p p' h

/-- A failing sub-matcher leaves the cursor where it started. -/
theorem matchE_fail_eq (fuel : Nat) :
    ∀ (e : Regex.RegexExpression) (s : List Char) (pos p' : Nat),
      Regex.matchE fuel e s pos = some (false, p') → p' = pos := by
  induction fuel with
  | zero => intro e s pos p' h; simp [Regex.matchE] at h
  | succ f ih =>
    intro e s pos p' h
    cases e with
    | char c =>
      simp only [Regex.matchE] at h
      split at h
      · split at h <;> simp_all
      · simp_all
    | dot =>
      simp only [Regex.matchE] at h
      split at h <;> simp_all
    | seq es =>
      cases es with
      | nil => simp [Regex.matchE] at h
      | cons e rest =>
        simp only [Regex.matchE] at h
        cases heq : Regex.matchE f e s pos with
        | none => rw [heq] at h; simp at h
        | some bp =>
          obtain ⟨b, p⟩ := bp
          rw [heq] at h
          cases b with
          | false => simp at h; omega
          | true =>
            simp only at h
            cases heq2 : Regex.matchE f (.seq rest) s p with
            | none => rw [heq2] at h; simp at h
            | some bq =>
              obtain ⟨b2, q⟩ := bq
              rw [heq2] at h
              cases b2 with
              | false => simp at h; omega
              | true => simp at h
    | alt l r =>
      simp only [Regex.matchE] at h
      cases heq : Regex.matchE f l s pos with
      | none => rw [heq] at h; simp at h
      | some bp =>
        obtain ⟨b, p⟩ := bp
        rw [heq] at h
        cases b with
        | false => exact ih r s pos p' h
        | true => simp at h
    | star e => exact absurd h (matchE_star_ne_false (f + 1) e s pos p')

/-- The cursor never moves past the end of the input. -/
theorem matchE_le_length (fuel : Nat) :
    ∀ (e : Regex.RegexExpression) (s : List Char) (pos : Nat) (b : Bool) (p' : Nat),
      Regex.matchE fuel e s pos = some (b, p') → pos ≤ s.length → p' ≤ s.length := by
  induction fuel with
  | zero => intro e s pos b p' h _; simp [Regex.matchE] at h
  | succ f ih =>
    intro e s pos b p' h hpos
    cases e with
    | char c =>
      simp only [Regex.matchE] at h
      split at h
      · split at h <;> (simp at h; omega)
      · simp at h; omega
    | dot =>
      simp only [Regex.matchE] at h
      split at h <;> (simp at h; omega)
    | seq es =>
      cases es with
      | nil => simp [Regex.matchE] at h; omega
      | cons e rest =>
        simp only [Regex.matchE] at h
        cases heq : Regex.matchE f e s pos with
        | none => rw [heq] at h; simp at h
        | some bp =>
          obtain ⟨b1, p⟩ := bp
          rw [heq] at h
          cases b1 with
          | false => simp at h; omega
          | true =>
            have hp : p ≤ s.length := ih e s pos true p heq hpos
            simp only at h
            cases heq2 : Regex.matchE f (.seq rest) s p with
            | none => rw [heq2] at h; simp at h
            | some bq =>
              obtain ⟨b2, q⟩ := bq
              rw [heq2] at h
              cases b2 with
              | false => simp at h; omega
              | true =>
                have hq : q ≤ s.length := ih (.seq rest) s p true q heq2 hp
                simp at h; omega
    | alt l r =>
      simp only [Regex.matchE] at h
      cases heq : Regex.matchE f l s pos with
      | none => rw [heq] at h; simp at h
      | some bp =>
        obtain ⟨b1, p⟩ := bp
        rw [heq] at h
        cases b1 with
        | false => exact ih r s pos b p' h hpos
        | true =>
          have := ih l s pos true p heq hpos
          simp at h; omega
    | star e =>
      simp only [Regex.matchE] at h
      cases heq : Regex.matchE f e s pos with
      | none => rw [heq] at h; simp at h
      | some bp =>
        obtain ⟨b1, p⟩ := bp
        rw [heq] at h
        have hp : p ≤ s.length := ih e s pos b1 p heq hpos
        cases b1 with
        | false => simp at h; omega
        | true => exact ih (.star e) s p b p' h hp

/-- The inner `a*` of the pattern `a**` always succeeds on empty input
without moving the cursor (or runs out of fuel). -/
theorem matchE_star_char_empty (fuel : Nat) :
    Regex.matchE fuel (.star (.char 'a')) [] 0 = none ∨
      Regex.matchE fuel (.star (.char 'a')) [] 0 = some (true, 0) := by
  match fuel with
  | 0 => exact Or.inl rfl
  | 1 => exact Or.inl rfl
  | (g + 2) => exact Or.inr rfl

/-- `ZeroOrMoreExpression.match` of `ZeroOrMoreExpression(a)` on empty
input never returns, whatever the fuel: the inner star always succeeds
without consuming, so the source's `while` loop never exits. -/
theorem matchE_starstar_none (fuel : Nat) :
    Regex.matchE fuel (.star (.star (.char 'a'))) [] 0 = none := by
  induction fuel with
  | zero => rfl
  | succ f ih =>
    simp only [Regex.matchE]
    rcases matchE_star_char_empty f with h | h
    · rw [h]
    · rw [h]
      exact ih

/-! ### Claims about the regex interpreter -/

/-- C1: `test(pattern, input)` returns true exactly when a successful
match starting at cursor position 0 consumes the entire input (full-match
anchoring, no substring search), and the six sample pattern/input pairs
of the specification evaluate as stated. -/
theorem test_fullmatch_anchoring :
    (∀ (fuel : Nat) (pattern input : String) (b : Bool),
        Regex.testF fuel pattern input = some b →
        (b = true ↔
          Regex.matchE fuel (Regex.parsePattern pattern) input.toList 0 =
            some (true, input.toList.length)))
    ∧ Regex.testF 50 "a*b" "aaab" = some true
    ∧ Regex.testF 50 "a*b" "b" = some true
    ∧ Regex.testF 50 "a*b" "c" = some false
    ∧ Regex.testF 50 "a.c" "abc" = some true
    ∧ Regex.testF 50 "a|b" "a" = some true
    ∧ Regex.testF 50 "a|b" "b" = some true := by
  refine ⟨?_, by decide, by decide, by decide, by decide, by decide, by decide⟩
  intro fuel pattern input b h
  unfold Regex.testF at h
  cases heq : Regex.matchE fuel (Regex.parsePattern pattern) input.toList 0 with
  | none => rw [heq] at h; simp at h
  | some bp =>
    obtain ⟨b0, p⟩ := bp
    rw [heq] at h
    simp only [Option.some.injEq] at h
    constructor
    · intro hb
      rw [hb] at h
      have hsplit : b0 = true ∧ input.toList.length ≤ p := by
        have := h.symm
        simp [Bool.and_eq_true] at this
        exact this
      have hple : p ≤ input.toList.length :=
        matchE_le_length fuel (Regex.parsePattern pattern) input.toList 0 b0 p heq
          (Nat.zero_le _)
      have : p = input.toList.length := le_antisymm hple hsplit.2
      rw [hsplit.1, this]
    · intro hm
      simp only [Option.some.injEq, Prod.mk.injEq] at hm
      rw [← h, hm.1, hm.2]
      simp

/-- C1 witness: instantiating the anchoring equivalence on
`test("a*b", "aaab")`. -/
theorem test_fullmatch_anchoring_witness :
    Regex.matchE 50 (Regex.parsePattern "a*b") "aaab".toList 0 =
      some (true, "aaab".toList.length) :=
  (test_fullmatch_anchoring.1 50 "a*b" "aaab" true (by decide)).mp rfl

/-- C2: division of the claim — the code does NOT terminate for every
pattern: on the pattern `a**` (star applied to a star), the matcher
diverges for every fuel value, because the inner zero-or-more matcher
always succeeds without consuming input and the outer `while` loop of
`ZeroOrMoreExpression.match` therefore never exits.  `test("a**", "")`
never returns. -/
theorem test_starstar_diverges :
    Regex.parsePattern "a**" = .seq [.star (.star (.char 'a'))]
    ∧ ∀ fuel : Nat, Regex.testF fuel "a**" "" = none := by
  refine ⟨rfl, ?_⟩
  intro fuel
  unfold Regex.testF
  have hp : Regex.parsePattern "a**" = .seq [.star (.star (.char 'a'))] := rfl
  rw [hp]
  cases fuel with
  | zero => rfl
  | succ f =>
    show (match Regex.matchE (f + 1) (.seq [.star (.star (.char 'a'))]) [] 0 with
      | none => none
      | some (b, pos) => some (b && decide (("" : String).toList.length ≤ pos))) = none
    simp only [Regex.matchE]
    rw [matchE_starstar_none f]

/-- C8: a failing sub-matcher leaves the cursor position unchanged, for
every compiled sub-expression and every state; moreover alternation
restarts its right branch from the snapshot position whenever the left
branch fails. -/
theorem match_failure_preserves_cursor :
    (∀ (fuel : Nat) (e : Regex.RegexExpression) (s : List Char) (pos p' : Nat),
        Regex.matchE fuel e s pos = some (false, p') → p' = pos)
    ∧ (∀ (fuel : Nat) (l r : Regex.RegexExpression) (s : List Char) (pos q : Nat),
        Regex.matchE fuel l s pos = some (false, q) →
        Regex.matchE (fuel + 1) (.alt l r) s pos = Regex.matchE fuel r s pos) := by
  constructor
  · exact fun fuel => matchE_fail_eq fuel
  · intro fuel l r s pos q h
    simp only [Regex.matchE]
    rw [h]

/-- C8 witness: a concrete failing character match leaves the cursor at
its start position. -/
theorem match_failure_preserves_cursor_witness :
    Regex.matchE 5 (.char 'a') ['b'] 0 = some (false, 0) ∧ (0 : Nat) = 0 :=
  ⟨by decide, match_failure_preserves_cursor.1 5 (.char 'a') ['b'] 0 0 (by decide)⟩

/-- C10: the empty pattern compiles to an empty sequence matcher, which
always succeeds while consuming nothing, so `test("", s)` is true exactly
when the input is already exhausted — i.e. exactly for the empty input. -/
theorem test_empty_pattern :
    Regex.parsePattern "" = .seq []
    ∧ (∀ (fuel : Nat) (s : List Char) (pos : Nat),
        Regex.matchE (fuel + 1) (.seq []) s pos = some (true, pos))
    ∧ (∀ (fuel : Nat) (s : String),
        Regex.testF (fuel + 1) "" s = some true ↔ s = "") := by
  refine ⟨rfl, fun fuel s pos => rfl, ?_⟩
  intro fuel s
  unfold Regex.testF
  show (match (some (true, 0) : Option (Bool × Nat)) with
    | none => none
    | some (b, pos) => some (b && decide (s.toList.length ≤ pos))) = some true ↔ s = ""
  simp only
  constructor
  · intro h
    simp only [Option.some.injEq, Bool.true_and] at h
    have hlen : s.toList.length = 0 := by
      by_contra hne
      rw [decide_eq_true_iff] at h
      omega
    have : s.toList = [] := List.length_eq_zero.mp hlen
    cases s with
    | mk data =>
      simp only [String.toList] at this
      rw [this]
  · intro h
    rw [h]
    rfl

/-! ### Claims about the arithmetic calculator -/

/-- C4: interpreting a division node whose right operand evaluates to 0
raises the division-by-zero error; a division that returns a value always
returns the true quotient of two successfully evaluated operands with a
nonzero divisor (no `Infinity`/`NaN` sentinel exists in the evaluator);
and `evaluate("10 / 0")` raises. -/
theorem divide_by_zero_raises :
    (∀ (l r : Calculator.AbstractExpression) (ctx : Calculator.CalcContext),
        Calculator.interpret r ctx = .ok 0 →
        Calculator.interpret (.DivideExpression l r) ctx = .error .divByZero)
    ∧ (∀ (l r : Calculator.AbstractExpression) (ctx : Calculator.CalcContext) (q : ℚ),
        Calculator.interpret (.DivideExpression l r) ctx = .ok q →
        ∃ a b : ℚ, Calculator.interpret l ctx = .ok a ∧
          Calculator.interpret r ctx = .ok b ∧ b ≠ 0 ∧ q = a / b)
    ∧ Calculator.evaluate "10 / 0" [] = .error .divByZero := by
  refine ⟨?_, ?_, by rfl⟩
  · intro l r ctx h
    rw [Calculator.interpret, h]
    rfl
  · intro l r ctx q h
    rw [Calculator.interpret] at h
    cases heq : Calculator.interpret r ctx with
    | error e => rw [heq] at h; simp at h
    | ok b =>
      rw [heq] at h
      simp only at h
      by_cases hb : b = 0
      · rw [if_pos hb] at h
        simp at h
      · rw [if_neg hb] at h
        cases heq2 : Calculator.interpret l ctx with
        | error e => rw [heq2] at h; simp at h
        | ok a =>
          rw [heq2] at h
          simp only [Except.ok.injEq] at h
          exact ⟨a, b, rfl, rfl, hb, h.symm⟩

/-- C4 witness: the zero-divisor case instantiated on `1 / 0`. -/
theorem divide_by_zero_raises_witness :
    Calculator.interpret
      (.DivideExpression (.NumberExpression 1) (.NumberExpression 0)) [] =
      .error .divByZero :=
  divide_by_zero_raises.1 (.NumberExpression 1) (.NumberExpression 0) [] rfl

/-- C5: `*` and `/` have precedence 2, `+` and `-` precedence 1, so
`evaluate("2 + 3 * 4")` is 14 (not 20), while parentheses override the
precedence: `evaluate("(2 + 3) * 4")` is 20. -/
theorem precedence_and_parentheses :
    Calculator.evaluate "2 + 3 * 4" [] = .ok 14
    ∧ Calculator.evaluate "(2 + 3) * 4" [] = .ok 20
    ∧ Calculator.precedence "*" = 2 ∧ Calculator.precedence "/" = 2
    ∧ Calculator.precedence "+" = 1 ∧ Calculator.precedence "-" = 1 :=
  ⟨by with_unfolding_all rfl, by with_unfolding_all rfl, rfl, rfl, rfl, rfl⟩

/-- C6 counterexample: on the empty source string — whose tokenization is
empty — the parser does not raise anything: it returns the `undefined`
bottom of the empty output stack, and `evaluate` then fails with a
JavaScript `TypeError` (calling `.interpret` on `undefined`), not with a
parser-raised `EmptyExpression` error (no such error exists in the code). -/
theorem empty_input_no_parser_error :
    Calculator.tokenize "" = []
    ∧ Calculator.parse (Calculator.tokenize "") = .ok .undefinedExpr
    ∧ Calculator.evaluate "" [] = .error .typeError :=
  ⟨rfl, rfl, rfl⟩

/-- C6 (amended): for every source string whose tokenization yields no
tokens, the parser returns normally with the `undefined` stack bottom and
`evaluate` fails with a `TypeError` when it invokes `interpret` on it. -/
theorem empty_tokens_type_error :
    ∀ (s : String) (ctx : Calculator.CalcContext),
      Calculator.tokenize s = [] →
      Calculator.parse (Calculator.tokenize s) = .ok .undefinedExpr
      ∧ Calculator.evaluate s ctx = .error .typeError := by
  intro s ctx h
  constructor
  · rw [h]
    rfl
  · unfold Calculator.evaluate
    rw [h]
    rfl

/-- C6 witness: the amended statement instantiated on the empty string. -/
theorem empty_tokens_type_error_witness :
    Calculator.parse (Calculator.tokenize "") = .ok .undefinedExpr
    ∧ Calculator.evaluate "" [] = .error .typeError :=
  empty_tokens_type_error "" [] rfl

/-- C7: a variable absent from the context evaluates to 0 instead of
failing, and with an empty context `evaluate("x + 1")` is 1. -/
theorem undefined_variable_zero :
    (∀ (ctx : Calculator.CalcContext) (name : String),
        List.lookup name ctx = none →
        Calculator.interpret (.VariableExpression name) ctx = .ok 0)
    ∧ Calculator.evaluate "x + 1" [] = .ok 1 := by
  constructor
  · intro ctx name h
    simp [Calculator.interpret, Calculator.getVariable, h]
  · with_unfolding_all rfl

/-- C7 witness: the lookup-miss case instantiated on `x` in the empty
context. -/
theorem undefined_variable_zero_witness :
    List.lookup "x" ([] : Calculator.CalcContext) = none
    ∧ Calculator.interpret (.VariableExpression "x") [] = .ok 0 :=
  ⟨rfl, undefined_variable_zero.1 [] "x" rfl⟩

/-! ### Helper lemmas about the SQL evaluator -/

/-- A `LIKE` predicate on a row that lacks the column throws: the column
read yields `undefined` and `.toString()` on it is a `TypeError`. -/
theorem evaluate_like_missing (w : SQL.WhereExpression) (row : SQL.Row)
    (hop : w.operator = "LIKE") (hcol : List.lookup w.column row = none) :
    SQL.evaluate w row = .error .typeError := by
  unfold SQL.evaluate
  rw [hop, hcol]
  rfl

/-- A `LIKE` predicate either throws the `TypeError` or returns a
boolean — no other error can come out of it. -/
theorem evaluate_like_cases (w : SQL.WhereExpression) (row : SQL.Row)
    (hop : w.operator = "LIKE") :
    SQL.evaluate w row = .error .typeError ∨ ∃ b, SQL.evaluate w row = .ok b := by
  unfold SQL.evaluate
  rw [hop]
  cases hv : (List.lookup w.column row).getD .undef with
  | undef => exact Or.inl rfl
  | num q =>
    cases hw : w.value with
    | undef => exact Or.inl rfl
    | num q2 => exact Or.inr ⟨_, rfl⟩
    | str s2 => exact Or.inr ⟨_, rfl⟩
  | str s =>
    cases hw : w.value with
    | undef => exact Or.inl rfl
    | num q2 => exact Or.inr ⟨_, rfl⟩
    | str s2 => exact Or.inr ⟨_, rfl⟩

/-- Filtering by a `LIKE` predicate over rows of which at least one lacks
the column aborts with the `TypeError`. -/
theorem filterRows_like_missing (w : SQL.WhereExpression) (hop : w.operator = "LIKE") :
    ∀ rows : List SQL.Row, (∃ r ∈ rows, List.lookup w.column r = none) →
      SQL.filterRows w rows = .error .typeError := by
  intro rows
  induction rows with
  | nil => intro h; simp at h
  | cons r rs ih =>
    intro h
    obtain ⟨r0, hmem, hr0⟩ := h
    by_cases hr : List.lookup w.column r = none
    · have herr := evaluate_like_missing w r hop hr
      unfold SQL.filterRows
      rw [herr]
    · have hex : ∃ x ∈ rs, List.lookup w.column x = none := by
        cases List.mem_cons.mp hmem with
        | inl heq => exact absurd (heq ▸ hr0) hr
        | inr hmem2 => exact ⟨r0, hmem2, hr0⟩
      rcases evaluate_like_cases w r hop with herr | ⟨b, hok⟩
      · unfold SQL.filterRows
        rw [herr]
      · unfold SQL.filterRows
        rw [hok, ih hex]

/-! ### Claims about the SQL interpreter -/

/-- C3: refuted — the `>=` and `<=` operators do NOT behave with their
comparison semantics through `execute`.  The WHERE regex alternation
`(=|!=|>|<|>=|<=|LIKE)` lists `>` before `>=` and `<` before `<=`, so
`age >= 28` parses as operator `>` with the value string `"= 28"`; the
numeric comparison against that non-numeric string is always false and
the query returns no rows (here: a table whose only row has `age = 30`,
which the claim says must be returned).  The `>=`/`<=` branches of
`WhereExpression.evaluate` — which would return `true` on that row, last
conjunct — are unreachable from `parseSQL`. -/
theorem sql_ge_parses_as_gt :
    SQL.parseSQL "SELECT * FROM users WHERE age >= 28" =
      .ok ⟨["*"], "users", some ⟨"age", ">", .str "= 28"⟩⟩
    ∧ SQL.execute [("users", [[("age", SQL.JsVal.num 30)]])]
        "SELECT * FROM users WHERE age >= 28" = .ok []
    ∧ SQL.parseSQL "SELECT * FROM users WHERE age <= 99" =
      .ok ⟨["*"], "users", some ⟨"age", "<", .str "= 99"⟩⟩
    ∧ SQL.execute [("users", [[("age", SQL.JsVal.num 30)]])]
        "SELECT * FROM users WHERE age <= 99" = .ok []
    ∧ SQL.evaluate ⟨"age", ">=", SQL.JsVal.num 28⟩ [("age", SQL.JsVal.num 30)] = .ok true
    ∧ SQL.evaluate ⟨"age", "<=", SQL.JsVal.num 99⟩ [("age", SQL.JsVal.num 30)] = .ok true := by
  refine ⟨?_, ?_, ?_, ?_, ?_, ?_⟩ <;> with_unfolding_all rfl

/-- C9: if a parsed query's WHERE predicate uses the `LIKE` operator and
some row of the target table lacks the predicate's column, `execute`
throws the `TypeError` (from calling `.toString()` on `undefined`)
instead of returning a row set. -/
theorem sql_like_missing_column_throws :
    ∀ (ctx : SQL.SQLContext) (sql : String) (cols : List String)
      (tbl c : String) (v : SQL.JsVal) (rows : List SQL.Row),
      SQL.parseSQL sql = .ok ⟨cols, tbl, some ⟨c, "LIKE", v⟩⟩ →
      List.lookup tbl ctx = some rows →
      (∃ r ∈ rows, List.lookup c r = none) →
      SQL.execute ctx sql = .error .typeError := by
  intro ctx sql cols tbl c v rows hparse hlookup hex
  unfold SQL.execute
  rw [hparse]
  unfold SQL.interpret
  simp only [hlookup, Option.getD_some]
  rw [filterRows_like_missing ⟨c, "LIKE", v⟩ rfl rows hex]

/-- C9 witness: a concrete table whose single row lacks the `LIKE`
column `c`; the query throws. -/
theorem sql_like_missing_column_throws_witness :
    SQL.execute [("t", [[("a", SQL.JsVal.str "q")]])]
      "SELECT * FROM t WHERE c LIKE 'q'" = .error .typeError :=
  sql_like_missing_column_throws [("t", [[("a", SQL.JsVal.str "q")]])]
    "SELECT * FROM t WHERE c LIKE 'q'" ["*"] "t" "c" (.str "q")
    [[("a", SQL.JsVal.str "q")]] (by with_unfolding_all rfl) rfl
    ⟨[("a", SQL.JsVal.str "q")], by simp, rfl⟩

/-- C10 witness: the empty-input direction of the equivalence
instantiated concretely. -/
theorem test_empty_pattern_witness : Regex.testF 6 "" "" = some true :=
  (test_empty_pattern.2.2 5 "").mpr rfl
